import Mathlib

/-!
A shallow embedding of the two classes of the repository
`autonomous-niche-saas-integration-hub`:

* `src/api_integrator.py` — `APIIntegrator` with a connector registry
  (`add_connector`) and a config-driven connection sequence (`connect_apis`).
* `src/market_research_analyzer.py` — `MarketResearchAnalyzer` with
  `analyze_market` and the stubbed `_process_gap_analysis`.

Python exceptions are modelled with `Except`, the logger with an explicit
list of log entries, and each externally observable call (a connector's
`connect`, the market-data fetch, the historical fetch) with an explicit
event appended to a trace.  Collaborator behaviour (the `APIConnector`
and `KnowledgeRepository` instances, which the repository does not
implement) is a parameter of the model (`Env` / `AnalyzerEnv`).
-/

/-- A parameter bag, the value of a service descriptor's `params` key
(`**service['params']` expands it into named arguments). -/
abbrev Params := List (String × String)

/-- Python exception values observable in this code: `ValueError(msg)`
raised by `connect_apis` itself, `KeyError(key)` from a missing dict key,
and an arbitrary error raised by a collaborator. -/
inductive PyErr where
  | valueError (msg : String)
  | keyError (key : String)
  | apiError (msg : String)
deriving DecidableEq, Repr

/-- `str(e)` for the exceptions above (Python renders `KeyError('k')`
as `'k'`). -/
def PyErr.str : PyErr → String
  | .valueError m => m
  | .keyError k => "'" ++ k ++ "'"
  | .apiError m => m

instance exceptDecEq {ε α : Type} [DecidableEq ε] [DecidableEq α] :
    DecidableEq (Except ε α) := fun a b =>
  match a, b with
  | .error x, .error y =>
    if h : x = y then .isTrue (by rw [h])
    else .isFalse (fun hh => h (Except.error.injEq .. ▸ hh))
  | .ok x, .ok y =>
    if h : x = y then .isTrue (by rw [h])
    else .isFalse (fun hh => h (Except.ok.injEq .. ▸ hh))
  | .error _, .ok _ => .isFalse (fun hh => Except.noConfusion hh)
  | .ok _, .error _ => .isFalse (fun hh => Except.noConfusion hh)

/-- One logger record: `logger.info(...)` or `logger.error(...)`. -/
inductive LogEntry where
  | info (msg : String)
  | error (msg : String)
deriving DecidableEq, Repr

/-- A service descriptor, one element of `config['services']`.  The two
keys the code reads may each be absent (`Option`). -/
structure ServiceDesc where
  name? : Option String
  params? : Option Params
deriving DecidableEq, Repr

/-- The configuration dict passed to `connect_apis`; the only key the
code reads is `services`, which may be absent. -/
structure Config where
  services? : Option (List ServiceDesc)
deriving DecidableEq, Repr

/-- `self.connectors`: a Python dict from connector name to connector
instance; connector instances are opaque handles, modelled by `Nat`. -/
abbrev Registry := String → Option Nat

/-- Behaviour of the external `APIConnector` collaborators: what each
connector handle's `connect(**params)` does (returns or raises). -/
structure Env where
  connect : Nat → Params → Except PyErr Unit

/-- An externally observable call made by `connect_apis`: the invocation
of `connector.connect(**service['params'])` on a resolved handle. -/
inductive Event where
  | connectCall (handle : Nat) (params : Params)
deriving DecidableEq, Repr

/-- `APIIntegrator.add_connector`: `self.connectors[name] = connector`
followed by an info log.  Returns the updated registry and the log. -/
def add_connector (reg : Registry) (name : String) (connector : Nat) :
    Registry × List LogEntry :=
  (fun k => if k = name then some connector else reg k,
   [LogEntry.info ("Added connector " ++ name)])

/-- Modelled from the spec: the body of `APIIntegrator._validate_config`
is truncated in the source (the file ends mid-docstring), so this follows
the spec's minimum contract: reject a `config` missing a `services` key,
reject an empty `services` list, reject any service descriptor missing
`name` or `params`. -/
def validate_config (config : Config) : Bool :=
  match config.services? with
  | none => false
  | some [] => false
  | some svcs =>
      svcs.all (fun s => s.name?.isSome && s.params?.isSome)

/-- The `for service in config['services']` loop of `connect_apis`:
resolve each descriptor's name via `self.connectors.get(...)`, raise
`ValueError` when the lookup misses, log `Connecting {name}`, then call
`connector.connect(**service['params'])`; stop at the first exception.
Returns the trace of connect invocations, the logs, and the outcome. -/
def connectLoop (env : Env) (reg : Registry) :
    List ServiceDesc → List Event × List LogEntry × Except PyErr Unit
  | [] => ([], [], .ok ())
  | s :: rest =>
    match s.name? with
    | none => ([], [], .error (.keyError "name"))
    | some name =>
      match reg name with
      | none => ([], [], .error (.valueError ("Connector " ++ name ++ " not found")))
      | some handle =>
        match s.params? with
        | none => ([], [], .error (.keyError "params"))
        | some ps =>
          match env.connect handle ps with
          | .error e =>
            ([Event.connectCall handle ps],
             [LogEntry.info ("Connecting " ++ name)], .error e)
          | .ok _ =>
            let r := connectLoop env reg rest
            (Event.connectCall handle ps :: r.1,
             LogEntry.info ("Connecting " ++ name) :: r.2.1, r.2.2)

/-- `APIIntegrator.connect_apis`: log the start, validate the config
(raising `ValueError("Invalid configuration provided")` when invalid),
run the connection loop, and return `True`; any exception is logged as
`API integration failed: {str(e)}` and re-raised unchanged.  Returns the
(unmodified) registry, the event trace, the logs, and the outcome. -/
def connect_apis (env : Env) (reg : Registry) (config : Config) :
    Registry × List Event × List LogEntry × Except PyErr Bool :=
  let startLog := LogEntry.info "Starting API integration process"
  if validate_config config then
    let r := connectLoop env reg (config.services?.getD [])
    match r.2.2 with
    | .ok _ => (reg, r.1, startLog :: r.2.1, .ok true)
    | .error e =>
        (reg, r.1,
         startLog :: r.2.1 ++ [LogEntry.error ("API integration failed: " ++ e.str)],
         .error e)
  else
    let e := PyErr.valueError "Invalid configuration provided"
    (reg, [],
     [startLog, LogEntry.error ("API integration failed: " ++ e.str)],
     .error e)

/-- The registry after a `connect_apis` call. -/
def connectApisReg (env : Env) (reg : Registry) (config : Config) : Registry :=
  (connect_apis env reg config).1

/-- The connect-invocation trace of a `connect_apis` call. -/
def connectApisEvents (env : Env) (reg : Registry) (config : Config) : List Event :=
  (connect_apis env reg config).2.1

/-- The logs of a `connect_apis` call. -/
def connectApisLogs (env : Env) (reg : Registry) (config : Config) : List LogEntry :=
  (connect_apis env reg config).2.2.1

/-- The outcome of a `connect_apis` call: `.ok true` or the exception. -/
def connectApisResult (env : Env) (reg : Registry) (config : Config) :
    Except PyErr Bool :=
  (connect_apis env reg config).2.2.2

/-- A descriptor is fully connectable: it has a `name` registered in the
registry, a `params` bag, and the resolved connector's `connect` call
returns without raising. -/
def descOk (env : Env) (reg : Registry) (s : ServiceDesc) : Bool :=
  match s.name? with
  | none => false
  | some n =>
    match reg n with
    | none => false
    | some h =>
      match s.params? with
      | none => false
      | some p =>
        match env.connect h p with
        | .ok _ => true
        | .error _ => false

/-- The connect invocation a descriptor resolves to (meaningful when the
descriptor is well-formed and its name registered). -/
def descEvent (reg : Registry) (s : ServiceDesc) : Event :=
  Event.connectCall ((reg (s.name?.getD "")).getD 0) (s.params?.getD [])

/-- An opaque Python value as seen by `MarketResearchAnalyzer`: either
`None` or some structured record (modelled by an opaque tag). -/
inductive Value where
  | none
  | obj (tag : Nat)
deriving DecidableEq, Repr

/-- Behaviour of the analyzer's two collaborators: the connector's
`get_market_data(niche)` and the repository's
`retrieve_historical_market_data(niche)`, each of which may raise. -/
structure AnalyzerEnv where
  get_market_data : String → Except PyErr Value
  retrieve_historical_market_data : String → Except PyErr Value

/-- An externally observable call made by `analyze_market`. -/
inductive AEvent where
  | getMarketData (niche : String)
  | retrieveHistorical (niche : String)
deriving DecidableEq, Repr

/-- `MarketResearchAnalyzer._process_gap_analysis`: its body is the
single statement `pass`, so it returns `None` for every pair of inputs
and never raises. -/
def process_gap_analysis (current_data historical_data : Value) : Value :=
  Value.none

/-- `MarketResearchAnalyzer.analyze_market`: log the start, fetch the
market data, fetch the historical data, apply `_process_gap_analysis`
and return its result; any exception is logged as
`Market analysis failed for niche {niche}: {str(e)}` and re-raised.
Returns the trace of collaborator calls, the logs, and the outcome. -/
def analyze_market (env : AnalyzerEnv) (niche : String) :
    List AEvent × List LogEntry × Except PyErr Value :=
  let startLog := LogEntry.info ("Starting market analysis for niche: " ++ niche)
  let failLog := fun (e : PyErr) =>
    LogEntry.error ("Market analysis failed for niche " ++ niche ++ ": " ++ e.str)
  match env.get_market_data niche with
  | .error e =>
      ([AEvent.getMarketData niche], [startLog, failLog e], .error e)
  | .ok market_data =>
    match env.retrieve_historical_market_data niche with
    | .error e =>
        ([AEvent.getMarketData niche, AEvent.retrieveHistorical niche],
         [startLog, failLog e], .error e)
    | .ok historical_data =>
        ([AEvent.getMarketData niche, AEvent.retrieveHistorical niche],
         [startLog], .ok (process_gap_analysis market_data historical_data))

/-- The collaborator-call trace of an `analyze_market` call. -/
def analyzeEvents (env : AnalyzerEnv) (niche : String) : List AEvent :=
  (analyze_market env niche).1

/-- The logs of an `analyze_market` call. -/
def analyzeLogs (env : AnalyzerEnv) (niche : String) : List LogEntry :=
  (analyze_market env niche).2.1

/-- The outcome of an `analyze_market` call. -/
def analyzeResult (env : AnalyzerEnv) (niche : String) : Except PyErr Value :=
  (analyze_market env niche).2.2

section Lemmas

/-- When every descriptor of a list is connectable, the connection loop
succeeds and its trace is exactly one connect invocation per descriptor,
in list order. -/
theorem connectLoop_all_ok (env : Env) (reg : Registry) :
    ∀ svcs : List ServiceDesc, (∀ s ∈ svcs, descOk env reg s = true) →
      connectLoop env reg svcs =
        (svcs.map (descEvent reg),
         svcs.map (fun s => LogEntry.info ("Connecting " ++ s.name?.getD "")),
         Except.ok ()) := by
  intro svcs
  induction svcs with
  | nil => intro _; rfl
  | cons s rest ih =>
    intro h
    have hs : descOk env reg s = true := h s (List.mem_cons_self ..)
    have hrest : ∀ t ∈ rest, descOk env reg t = true :=
      fun t ht => h t (List.mem_cons_of_mem _ ht)
    unfold connectLoop
    cases hn : s.name? with
    | none => simp [descOk, hn] at hs
    | some n =>
      cases hr : reg n with
      | none => simp [descOk, hn, hr] at hs
      | some handle =>
        cases hp : s.params? with
        | none => simp [descOk, hn, hr, hp] at hs
        | some ps =>
          cases hc : env.connect handle ps with
          | error e => simp [descOk, hn, hr, hp, hc] at hs
          | ok u =>
            simp [hn, hr, hp, hc, ih hrest, descEvent]

/-- The loop makes at most one connect invocation per descriptor. -/
theorem connectLoop_length_le (env : Env) (reg : Registry) :
    ∀ svcs : List ServiceDesc,
      (connectLoop env reg svcs).1.length ≤ svcs.length := by
  intro svcs
  induction svcs with
  | nil => simp [connectLoop]
  | cons s rest ih =>
    unfold connectLoop
    cases hn : s.name? with
    | none => simp
    | some n =>
      cases hr : reg n with
      | none => simp [hr]
      | some handle =>
        cases hp : s.params? with
        | none => simp [hr, hp]
        | some ps =>
          cases hc : env.connect handle ps with
          | error e =>
            simp only [hr, hp, hc, List.length_cons, List.length_nil]
            omega
          | ok u =>
            simp only [hr, hp, hc, List.length_cons]
            exact Nat.succ_le_succ ih

/-- Unfolding: `connect_apis` on an invalid config raises
`ValueError("Invalid configuration provided")` without any connect call. -/
theorem connect_apis_invalid (env : Env) (reg : Registry) (config : Config)
    (hval : validate_config config = false) :
    connect_apis env reg config =
      (reg, [],
       [LogEntry.info "Starting API integration process",
        LogEntry.error "API integration failed: Invalid configuration provided"],
       Except.error (PyErr.valueError "Invalid configuration provided")) := by
  unfold connect_apis
  simp [hval, PyErr.str]

/-- Unfolding: `connect_apis` on a valid config whose loop succeeds
returns `True` with the loop's trace and logs. -/
theorem connect_apis_valid_ok (env : Env) (reg : Registry) (config : Config)
    (hval : validate_config config = true)
    (hres : (connectLoop env reg (config.services?.getD [])).2.2 = Except.ok ()) :
    connect_apis env reg config =
      (reg, (connectLoop env reg (config.services?.getD [])).1,
       LogEntry.info "Starting API integration process" ::
         (connectLoop env reg (config.services?.getD [])).2.1,
       Except.ok true) := by
  unfold connect_apis
  simp [hval, hres]

/-- Unfolding: `connect_apis` on a valid config whose loop raises `e`
logs the failure and re-raises `e` unchanged. -/
theorem connect_apis_valid_err (env : Env) (reg : Registry) (config : Config)
    (e : PyErr) (hval : validate_config config = true)
    (hres : (connectLoop env reg (config.services?.getD [])).2.2 = Except.error e) :
    connect_apis env reg config =
      (reg, (connectLoop env reg (config.services?.getD [])).1,
       LogEntry.info "Starting API integration process" ::
         (connectLoop env reg (config.services?.getD [])).2.1 ++
         [LogEntry.error ("API integration failed: " ++ e.str)],
       Except.error e) := by
  unfold connect_apis
  simp [hval, hres]

/-- If some descriptor's name resolves to no registered connector, the
connection loop raises and makes no connect invocation at or after that
descriptor's position. -/
theorem connectLoop_unregistered (env : Env) (reg : Registry) :
    ∀ (pre : List ServiceDesc) (s : ServiceDesc) (post : List ServiceDesc)
      (n : String), s.name? = some n → reg n = none →
      (∃ e, (connectLoop env reg (pre ++ s :: post)).2.2 = Except.error e) ∧
      (connectLoop env reg (pre ++ s :: post)).1.length ≤ pre.length := by
  intro pre
  induction pre with
  | nil =>
    intro s post n hn hr
    unfold connectLoop
    simp [hn, hr]
  | cons q pre' ih =>
    intro s post n hn hr
    simp only [List.cons_append]
    unfold connectLoop
    cases hqn : q.name? with
    | none => simp
    | some qn =>
      cases hqr : reg qn with
      | none => simp [hqr]
      | some qh =>
        cases hqp : q.params? with
        | none => simp [hqr, hqp]
        | some qp =>
          cases hqc : env.connect qh qp with
          | error e =>
            simp only [hqr, hqp, hqc, List.length_cons, List.length_nil]
            exact ⟨⟨e, rfl⟩, by omega⟩
          | ok u =>
            have h := ih s post n hn hr
            simp only [hqr, hqp, hqc, List.length_cons]
            exact ⟨h.1, Nat.succ_le_succ h.2⟩

/-- If some descriptor resolves to a registered connector whose
`connect` call raises, the connection loop raises and makes no connect
invocation after that descriptor's position. -/
theorem connectLoop_connect_raises (env : Env) (reg : Registry) :
    ∀ (pre : List ServiceDesc) (s : ServiceDesc) (post : List ServiceDesc)
      (n : String) (handle : Nat) (p : Params) (e : PyErr),
      s.name? = some n → reg n = some handle → s.params? = some p →
      env.connect handle p = Except.error e →
      (∃ e', (connectLoop env reg (pre ++ s :: post)).2.2 = Except.error e') ∧
      (connectLoop env reg (pre ++ s :: post)).1.length ≤ pre.length + 1 := by
  intro pre
  induction pre with
  | nil =>
    intro s post n handle p e hn hr hp hc
    unfold connectLoop
    simp only [List.nil_append, hn, hr, hp, hc, List.length_cons,
      List.length_nil]
    exact ⟨⟨e, rfl⟩, by omega⟩
  | cons q pre' ih =>
    intro s post n handle p e hn hr hp hc
    simp only [List.cons_append]
    unfold connectLoop
    cases hqn : q.name? with
    | none => simp
    | some qn =>
      cases hqr : reg qn with
      | none => simp [hqr]
      | some qh =>
        cases hqp : q.params? with
        | none => simp [hqr, hqp]
        | some qp =>
          cases hqc : env.connect qh qp with
          | error e0 =>
            simp only [hqr, hqp, hqc, List.length_cons, List.length_nil]
            exact ⟨⟨e0, rfl⟩, by omega⟩
          | ok u =>
            have h := ih s post n handle p e hn hr hp hc
            simp only [hqr, hqp, hqc, List.length_cons]
            exact ⟨h.1, Nat.succ_le_succ h.2⟩

/-- A connectable descriptor carries both a `name` and a `params` key,
so it passes the per-descriptor part of validation. -/
theorem descOk_shape (env : Env) (reg : Registry) (s : ServiceDesc)
    (h : descOk env reg s = true) :
    (s.name?.isSome && s.params?.isSome) = true := by
  unfold descOk at h
  cases hn : s.name? with
  | none => simp [hn] at h
  | some n =>
    cases hr : reg n with
    | none => simp [hn, hr] at h
    | some handle =>
      cases hp : s.params? with
      | none => simp [hn, hr, hp] at h
      | some p => simp [hn, hp]

/-- A nonempty list of connectable descriptors passes validation. -/
theorem validate_config_of_descOk (env : Env) (reg : Registry)
    (config : Config) (svcs : List ServiceDesc)
    (hsv : config.services? = some svcs) (hne : svcs ≠ [])
    (hok : ∀ s ∈ svcs, descOk env reg s = true) :
    validate_config config = true := by
  unfold validate_config
  rw [hsv]
  cases svcs with
  | nil => exact absurd rfl hne
  | cons s rest =>
    simp only [List.all_eq_true]
    intro t ht
    exact descOk_shape env reg t (hok t ht)

/-- On a valid config, the trace of `connect_apis` is the trace of its
connection loop, whether the loop succeeds or raises. -/
theorem connectApisEvents_valid (env : Env) (reg : Registry)
    (config : Config) (hval : validate_config config = true) :
    connectApisEvents env reg config =
      (connectLoop env reg (config.services?.getD [])).1 := by
  cases h2 : (connectLoop env reg (config.services?.getD [])).2.2 with
  | ok u =>
    have h := connect_apis_valid_ok env reg config hval (by rw [h2])
    unfold connectApisEvents
    rw [h]
  | error e =>
    have h := connect_apis_valid_err env reg config e hval h2
    unfold connectApisEvents
    rw [h]

/-- The connection loop on a single well-formed descriptor whose name
resolves to handle `c` makes exactly the one invocation of `c`'s
connect, whether that call succeeds or raises. -/
theorem connectLoop_singleton (env : Env) (reg : Registry) (n : String)
    (p : Params) (c : Nat) (hreg : reg n = some c) :
    (connectLoop env reg [⟨some n, some p⟩]).1 = [Event.connectCall c p] := by
  unfold connectLoop
  simp only [hreg]
  cases hc : env.connect c p <;> simp [hc, connectLoop]

end Lemmas

/-- A sample environment in which every connect call succeeds. -/
def env0 : Env := ⟨fun _ _ => Except.ok ()⟩

/-- A sample empty registry. -/
def reg0 : Registry := fun _ => none

/-- A sample registry with `"stripe"` registered to handle `1`. -/
def regStripe : Registry := fun k => if k = "stripe" then some 1 else none

/-- The spec's example descriptor `{"name": "stripe", "params": {"token": "abc"}}`. -/
def descStripe : ServiceDesc := ⟨some "stripe", some [("token", "abc")]⟩

/-- The spec's example config `{"services": [{"name": "stripe", ...}]}`. -/
def cfgStripe : Config := ⟨some [descStripe]⟩

/-- A config whose `services` list is empty. -/
def cfgEmpty : Config := ⟨some []⟩

/-- A config whose single descriptor names an unregistered service. -/
def cfgUnknown : Config := ⟨some [⟨some "unknown_service", some []⟩]⟩

/-- C1 counterexample: the claim as stated quantifies over every config
of shape `{"services": [...]}` whose descriptors (vacuously, here) all
resolve and succeed, and asserts `connect_apis` returns `true`; at the
concrete config `{"services": []}` the call instead raises
`ValueError("Invalid configuration provided")`. -/
theorem c1_counterexample :
    connectApisResult env0 reg0 cfgEmpty =
      Except.error (PyErr.valueError "Invalid configuration provided") := by
  decide

/-- C1 (amended): for every config whose `services` list is nonempty and
whose every descriptor carries a `params` bag and a `name` registered in
the connectors mapping with a succeeding `connect`, `connect_apis`
returns `true` and each listed descriptor's connector `connect` is
invoked exactly once, in list order, with that descriptor's parameter
bag. -/
theorem c1_connect_apis_success (env : Env) (reg : Registry)
    (config : Config) (svcs : List ServiceDesc)
    (hsv : config.services? = some svcs) (hne : svcs ≠ [])
    (hok : ∀ s ∈ svcs, descOk env reg s = true) :
    connectApisResult env reg config = Except.ok true ∧
    connectApisEvents env reg config = svcs.map (descEvent reg) := by
  have hval := validate_config_of_descOk env reg config svcs hsv hne hok
  have hloop := connectLoop_all_ok env reg svcs hok
  have hgd : config.services?.getD [] = svcs := by rw [hsv]; rfl
  have hres : (connectLoop env reg (config.services?.getD [])).2.2 =
      Except.ok () := by rw [hgd, hloop]
  have h := connect_apis_valid_ok env reg config hval hres
  constructor
  · unfold connectApisResult
    rw [h]
  · unfold connectApisEvents
    rw [h]
    rw [hgd, hloop]

/-- C1 witness: the spec's example scenario with `"stripe"` registered. -/
theorem c1_witness :
    connectApisResult env0 regStripe cfgStripe = Except.ok true ∧
    connectApisEvents env0 regStripe cfgStripe =
      [descStripe].map (descEvent regStripe) :=
  c1_connect_apis_success env0 regStripe cfgStripe [descStripe]
    rfl (by decide) (by decide)

/-- C2: for every config missing the `services` key or whose `services`
list is empty, `connect_apis` raises the configuration `ValueError` and
invokes no connector's `connect`. -/
theorem c2_missing_or_empty_services (env : Env) (reg : Registry)
    (config : Config)
    (h : config.services? = none ∨ config.services? = some []) :
    connectApisResult env reg config =
      Except.error (PyErr.valueError "Invalid configuration provided") ∧
    connectApisEvents env reg config = [] := by
  have hval : validate_config config = false := by
    unfold validate_config
    rcases h with h | h <;> rw [h]
  have hinv := connect_apis_invalid env reg config hval
  exact ⟨by unfold connectApisResult; rw [hinv], by unfold connectApisEvents; rw [hinv]⟩

/-- C2 witness: a config with no `services` key. -/
theorem c2_witness :
    connectApisResult env0 regStripe ⟨none⟩ =
      Except.error (PyErr.valueError "Invalid configuration provided") ∧
    connectApisEvents env0 regStripe ⟨none⟩ = [] :=
  c2_missing_or_empty_services env0 regStripe ⟨none⟩ (Or.inl rfl)

/-- C3: for every config whose service list contains a descriptor whose
name is not registered, `connect_apis` raises, and no connect invocation
is made for that descriptor or any later one (descriptors are processed
in list order, so the trace length is at most the number of earlier
descriptors). -/
theorem c3_unregistered_name (env : Env) (reg : Registry) (config : Config)
    (pre : List ServiceDesc) (s : ServiceDesc) (post : List ServiceDesc)
    (n : String)
    (hsv : config.services? = some (pre ++ s :: post))
    (hn : s.name? = some n) (hr : reg n = none) :
    (∃ e, connectApisResult env reg config = Except.error e) ∧
    (connectApisEvents env reg config).length ≤ pre.length := by
  have hgd : config.services?.getD [] = pre ++ s :: post := by rw [hsv]; rfl
  by_cases hval : validate_config config = true
  · obtain ⟨⟨e, he⟩, hlen⟩ := connectLoop_unregistered env reg pre s post n hn hr
    have h := connect_apis_valid_err env reg config e hval (by rw [hgd]; exact he)
    constructor
    · exact ⟨e, by unfold connectApisResult; rw [h]⟩
    · unfold connectApisEvents
      rw [h]
      rw [hgd]
      exact hlen
  · have hinv := connect_apis_invalid env reg config (by
      cases hv : validate_config config with
      | true => exact absurd hv hval
      | false => rfl)
    constructor
    · exact ⟨PyErr.valueError "Invalid configuration provided",
        by unfold connectApisResult; rw [hinv]⟩
    · unfold connectApisEvents
      rw [hinv]
      exact Nat.zero_le _

/-- C3 witness: the spec's example scenario with `"unknown_service"`
unregistered (the descriptor is first, so the trace must be empty). -/
theorem c3_witness :
    (∃ e, connectApisResult env0 reg0 cfgUnknown = Except.error e) ∧
    (connectApisEvents env0 reg0 cfgUnknown).length ≤
      ([] : List ServiceDesc).length :=
  c3_unregistered_name env0 reg0 cfgUnknown []
    ⟨some "unknown_service", some []⟩ [] "unknown_service" rfl rfl rfl

/-- C4: whenever `connect_apis` fails — validation failure, unregistered
name, or a connector's `connect` raising — it logs an error and
re-raises the original error unchanged (the returned exception is
exactly the validation `ValueError` or exactly the exception the loop
raised); it never returns any boolean other than `true` (no
partial-success result), and it never retries (at most one connect
invocation per listed descriptor). -/
theorem c4_log_and_reraise (env : Env) (reg : Registry) (config : Config) :
    (∀ e, connectApisResult env reg config = Except.error e →
      (∃ m, LogEntry.error m ∈ connectApisLogs env reg config) ∧
      ((validate_config config = false ∧
          e = PyErr.valueError "Invalid configuration provided") ∨
       (validate_config config = true ∧
          (connectLoop env reg (config.services?.getD [])).2.2 =
            Except.error e))) ∧
    (∀ b, connectApisResult env reg config = Except.ok b → b = true) ∧
    (connectApisEvents env reg config).length ≤
      (config.services?.getD []).length := by
  by_cases hval : validate_config config = true
  · cases hres : (connectLoop env reg (config.services?.getD [])).2.2 with
    | ok u =>
      have h := connect_apis_valid_ok env reg config hval (by rw [hres])
      have hresult : connectApisResult env reg config = Except.ok true := by
        unfold connectApisResult; rw [h]
      refine ⟨?_, ?_, ?_⟩
      · intro e he
        rw [hresult] at he
        exact absurd he (by simp)
      · intro b hb
        rw [hresult] at hb
        injection hb with hb'
        exact hb'.symm
      · unfold connectApisEvents
        rw [h]
        exact connectLoop_length_le env reg _
    | error e0 =>
      have h := connect_apis_valid_err env reg config e0 hval hres
      have hresult : connectApisResult env reg config = Except.error e0 := by
        unfold connectApisResult; rw [h]
      refine ⟨?_, ?_, ?_⟩
      · intro e he
        rw [hresult] at he
        injection he with he'
        subst he'
        refine ⟨⟨"API integration failed: " ++ e0.str, ?_⟩,
          Or.inr ⟨hval, rfl⟩⟩
        unfold connectApisLogs
        rw [h]
        simp
      · intro b hb
        rw [hresult] at hb
        exact absurd hb (by simp)
      · unfold connectApisEvents
        rw [h]
        exact connectLoop_length_le env reg _
  · have hvf : validate_config config = false := by
      cases hv : validate_config config with
      | true => exact absurd hv hval
      | false => rfl
    have h := connect_apis_invalid env reg config hvf
    have hresult : connectApisResult env reg config =
        Except.error (PyErr.valueError "Invalid configuration provided") := by
      unfold connectApisResult; rw [h]
    refine ⟨?_, ?_, ?_⟩
    · intro e he
      rw [hresult] at he
      injection he with he'
      refine ⟨⟨"API integration failed: Invalid configuration provided", ?_⟩,
        Or.inl ⟨hvf, he'.symm⟩⟩
      unfold connectApisLogs
      rw [h]
      simp
    · intro b hb
      rw [hresult] at hb
      exact absurd hb (by simp)
    · unfold connectApisEvents
      rw [h]
      simp

/-- C4 witness: a config with no `services` key fails, logs an error, and
the returned exception is exactly the validation `ValueError`. -/
theorem c4_witness :
    (∃ m, LogEntry.error m ∈ connectApisLogs env0 reg0 ⟨none⟩) ∧
    ((validate_config (⟨none⟩ : Config) = false ∧
        PyErr.valueError "Invalid configuration provided" =
          PyErr.valueError "Invalid configuration provided") ∨
     (validate_config (⟨none⟩ : Config) = true ∧
        (connectLoop env0 reg0 ((⟨none⟩ : Config).services?.getD [])).2.2 =
          Except.error (PyErr.valueError "Invalid configuration provided"))) :=
  (c4_log_and_reraise env0 reg0 ⟨none⟩).1
    (PyErr.valueError "Invalid configuration provided") (by decide)

/-- C5: descriptors are processed strictly sequentially, stopping at the
first failure: if the descriptor at position `i` resolves to a connector
whose `connect` raises, `connect_apis` raises and makes at most `i + 1`
connect invocations, so no descriptor after position `i` is ever
invoked. -/
theorem c5_stops_at_first_failure (env : Env) (reg : Registry)
    (config : Config) (pre : List ServiceDesc) (s : ServiceDesc)
    (post : List ServiceDesc) (n : String) (handle : Nat) (p : Params)
    (e : PyErr)
    (hsv : config.services? = some (pre ++ s :: post))
    (hn : s.name? = some n) (hr : reg n = some handle)
    (hp : s.params? = some p) (hc : env.connect handle p = Except.error e) :
    (∃ e', connectApisResult env reg config = Except.error e') ∧
    (connectApisEvents env reg config).length ≤ pre.length + 1 := by
  have hgd : config.services?.getD [] = pre ++ s :: post := by rw [hsv]; rfl
  by_cases hval : validate_config config = true
  · obtain ⟨⟨e', he⟩, hlen⟩ :=
      connectLoop_connect_raises env reg pre s post n handle p e hn hr hp hc
    have h := connect_apis_valid_err env reg config e' hval
      (by rw [hgd]; exact he)
    refine ⟨⟨e', by unfold connectApisResult; rw [h]⟩, ?_⟩
    unfold connectApisEvents
    rw [h, hgd]
    exact hlen
  · have hvf : validate_config config = false := by
      cases hv : validate_config config with
      | true => exact absurd hv hval
      | false => rfl
    have h := connect_apis_invalid env reg config hvf
    refine ⟨⟨PyErr.valueError "Invalid configuration provided",
      by unfold connectApisResult; rw [h]⟩, ?_⟩
    unfold connectApisEvents
    rw [h]
    exact Nat.zero_le _

/-- An environment in which every connect call raises. -/
def envFail : Env := ⟨fun _ _ => Except.error (PyErr.apiError "connection refused")⟩

/-- C5 witness: the `"stripe"` descriptor is first and its connect
raises, so the trace holds at most one invocation. -/
theorem c5_witness :
    (∃ e', connectApisResult envFail regStripe cfgStripe = Except.error e') ∧
    (connectApisEvents envFail regStripe cfgStripe).length ≤
      ([] : List ServiceDesc).length + 1 :=
  c5_stops_at_first_failure envFail regStripe cfgStripe [] descStripe []
    "stripe" 1 [("token", "abc")] (PyErr.apiError "connection refused")
    rfl rfl (by decide) rfl rfl

/-- C6: when neither fetch raises, `analyze_market` calls
`get_market_data` exactly once and `retrieve_historical_market_data`
exactly once, both with the same `niche`, and returns exactly the value
of `_process_gap_analysis` applied to the two fetched records. -/
theorem c6_analyze_market_fetches (env : AnalyzerEnv) (niche : String)
    (md hd : Value)
    (hm : env.get_market_data niche = Except.ok md)
    (hh : env.retrieve_historical_market_data niche = Except.ok hd) :
    analyzeEvents env niche =
      [AEvent.getMarketData niche, AEvent.retrieveHistorical niche] ∧
    analyzeResult env niche = Except.ok (process_gap_analysis md hd) := by
  unfold analyzeEvents analyzeResult analyze_market
  simp [hm, hh]

/-- An analyzer environment in which both fetches succeed. -/
def envBoth : AnalyzerEnv :=
  ⟨fun _ => Except.ok (Value.obj 1), fun _ => Except.ok (Value.obj 2)⟩

/-- C6 witness: both fetches succeed for the niche `"accounting"`. -/
theorem c6_witness :
    analyzeEvents envBoth "accounting" =
      [AEvent.getMarketData "accounting",
       AEvent.retrieveHistorical "accounting"] ∧
    analyzeResult envBoth "accounting" =
      Except.ok (process_gap_analysis (Value.obj 1) (Value.obj 2)) :=
  c6_analyze_market_fetches envBoth "accounting" (Value.obj 1) (Value.obj 2)
    rfl rfl

/-- C7: registering a connector under an already-registered name
replaces the prior handle without error (the update is total and the
lookup yields the newest handle), and a subsequent `connect_apis`
dispatch for that name invokes only the most recently registered
connector. -/
theorem c7_last_write_wins (reg : Registry) (n : String) (c' c : Nat)
    (env : Env) (p : Params) :
    (add_connector (add_connector reg n c').1 n c).1 n = some c ∧
    connectApisEvents env (add_connector (add_connector reg n c').1 n c).1
      ⟨some [⟨some n, some p⟩]⟩ = [Event.connectCall c p] := by
  have hreg : (add_connector (add_connector reg n c').1 n c).1 n = some c := by
    simp [add_connector]
  refine ⟨hreg, ?_⟩
  have hval : validate_config ⟨some [⟨some n, some p⟩]⟩ = true := by
    simp [validate_config]
  have hev := connectApisEvents_valid env
    (add_connector (add_connector reg n c').1 n c).1
    ⟨some [⟨some n, some p⟩]⟩ hval
  rw [hev]
  exact connectLoop_singleton env _ n p c hreg

/-- C8: whenever `analyze_market` raises, the raised exception is
exactly the one produced by the failing fetch, and the logs follow the
same single failure path (start log, then the one failure log naming the
niche and the error) regardless of which step raised. -/
theorem c8_analyze_market_reraise (env : AnalyzerEnv) (niche : String)
    (e : PyErr) (he : analyzeResult env niche = Except.error e) :
    analyzeLogs env niche =
      [LogEntry.info ("Starting market analysis for niche: " ++ niche),
       LogEntry.error
         ("Market analysis failed for niche " ++ niche ++ ": " ++ e.str)] ∧
    (env.get_market_data niche = Except.error e ∨
     ∃ md, env.get_market_data niche = Except.ok md ∧
       env.retrieve_historical_market_data niche = Except.error e) := by
  unfold analyzeResult analyze_market at he
  unfold analyzeLogs analyze_market
  cases hm : env.get_market_data niche with
  | error e1 =>
    rw [hm] at he
    simp only [] at he
    simp at he
    subst he
    exact ⟨by simp, Or.inl rfl⟩
  | ok md =>
    rw [hm] at he
    cases hh : env.retrieve_historical_market_data niche with
    | error e2 =>
      rw [hh] at he
      simp at he
      subst he
      exact ⟨by simp [hm, hh], Or.inr ⟨md, rfl, rfl⟩⟩
    | ok hd =>
      rw [hh] at he
      simp at he

/-- An analyzer environment in which the market-data fetch raises. -/
def envFetchFail : AnalyzerEnv :=
  ⟨fun _ => Except.error (PyErr.apiError "timeout"),
   fun _ => Except.ok Value.none⟩

/-- C8 witness: the market-data fetch for `"crm"` raises a timeout. -/
theorem c8_witness :
    analyzeLogs envFetchFail "crm" =
      [LogEntry.info "Starting market analysis for niche: crm",
       LogEntry.error "Market analysis failed for niche crm: timeout"] ∧
    (envFetchFail.get_market_data "crm" =
       Except.error (PyErr.apiError "timeout") ∨
     ∃ md, envFetchFail.get_market_data "crm" = Except.ok md ∧
       envFetchFail.retrieve_historical_market_data "crm" =
         Except.error (PyErr.apiError "timeout")) :=
  c8_analyze_market_reraise envFetchFail "crm" (PyErr.apiError "timeout") rfl

/-- C9: when both fetches succeed, `analyze_market` returns `None`
(despite its declared `Dict` return type), because
`_process_gap_analysis` has an empty body and produces no value. -/
theorem c9_returns_none (env : AnalyzerEnv) (niche : String) (md hd : Value)
    (hm : env.get_market_data niche = Except.ok md)
    (hh : env.retrieve_historical_market_data niche = Except.ok hd) :
    analyzeResult env niche = Except.ok Value.none := by
  unfold analyzeResult analyze_market
  simp [hm, hh, process_gap_analysis]

/-- C9 witness: both fetches succeed and the result is `None`. -/
theorem c9_witness :
    analyzeResult envBoth "accounting" = Except.ok Value.none :=
  c9_returns_none envBoth "accounting" (Value.obj 1) (Value.obj 2) rfl rfl

/-- C10: `connect_apis` never adds, removes, or replaces a registry
entry — the connectors mapping after the call is the one before it, both
when the call returns `true` and when it raises. -/
theorem c10_registry_unchanged (env : Env) (reg : Registry)
    (config : Config) : connectApisReg env reg config = reg := by
  unfold connectApisReg connect_apis
  by_cases hval : validate_config config = true
  · simp only [hval]
    cases h2 : (connectLoop env reg (config.services?.getD [])).2.2 <;>
      simp [h2]
  · have hvf : validate_config config = false := by
      cases hv : validate_config config with
      | true => exact absurd hv hval
      | false => rfl
    simp [hvf]

